import Mathlib

/-!
Shallow embedding of the trading-decision core of the repository
(signal decision engines, risk-ladder calculators and the learning
feedback loop), translated from the TypeScript sources:

- src/services/aiAnalysisEngine.ts          (performAIAnalysis)
- src/services/autonomousTradingEngine.ts   (determineEnhancedSignalType,
                                             createEnhancedTradingSignal)
- src/services/enhancedAIAnalyzer.ts        (calculatePreciseRiskLevels)
- src/App.tsx, AILearningEngine             (checkTradeOutcomes,
                                             determineWinOutcome,
                                             updateTradeOutcome,
                                             applyLearningToSignal)
- marketPriceService                        (checkTPSLLevels)

JavaScript numbers are modelled as rationals; `Number(x.toFixed(d))`
is modelled as rounding to `d` decimal digits.  String-building outputs
(reasoning text, recommendations, lessons) and I/O (persistence,
logging) are outside the embedding; every branch that decides a value
used by the claims is translated from the source.
-/

namespace Fx

/-- Signal direction, source type `'BUY' | 'SELL' | 'HOLD'`. -/
inductive SignalDir
  | BUY
  | SELL
  | HOLD
deriving DecidableEq

/-- Market trend, source type `'BULLISH' | 'BEARISH' | 'SIDEWAYS'`. -/
inductive Trend
  | BULLISH
  | BEARISH
  | SIDEWAYS
deriving DecidableEq

/-- Trade outcome, source type `'PENDING' | 'WIN' | 'PARTIAL' | 'LOSS'`. -/
inductive Outcome
  | PENDING
  | WIN
  | PARTIAL
  | LOSS
deriving DecidableEq

/-- Model of `Number(x.toFixed(d))`: round to `d` decimal digits. -/
def roundTo (d : ℕ) (x : ℚ) : ℚ :=
  (round (x * 10 ^ d) : ℚ) / 10 ^ d

/-- Decimal precision used at the output boundary:
`symbol === 'EURUSD' ? 4 : 2` in all three engines. -/
def decimalsFor (symbol : String) : ℕ :=
  if symbol = "EURUSD" then 4 else 2

/-- The price levels carried by an emitted signal. -/
structure SignalLevels where
  entryPrice : ℚ
  stopLoss : ℚ
  takeProfit1 : ℚ
  takeProfit2 : ℚ
  takeProfit3 : ℚ
deriving DecidableEq

/-- A raw (pre-rounding) price ladder: stop loss and three take profits. -/
structure Ladder where
  stopLoss : ℚ
  takeProfit1 : ℚ
  takeProfit2 : ℚ
  takeProfit3 : ℚ
deriving DecidableEq

/-- The BUY-side ladder ordering required by the specification:
`stopLoss < entryPrice < tp1 < tp2 < tp3`. -/
def ladderOrderedBuy (entryPrice : ℚ) (l : Ladder) : Prop :=
  l.stopLoss < entryPrice ∧ entryPrice < l.takeProfit1 ∧
    l.takeProfit1 < l.takeProfit2 ∧ l.takeProfit2 < l.takeProfit3

/-- The SELL-side ladder ordering required by the specification:
`stopLoss > entryPrice > tp1 > tp2 > tp3`. -/
def ladderOrderedSell (entryPrice : ℚ) (l : Ladder) : Prop :=
  l.stopLoss > entryPrice ∧ entryPrice > l.takeProfit1 ∧
    l.takeProfit1 > l.takeProfit2 ∧ l.takeProfit2 > l.takeProfit3

/-! ## aiAnalysisEngine.ts: performAIAnalysis -/

/-- Direction and trend decision of `performAIAnalysis` (lines 121-131):
`BUY`/`BULLISH` iff `bullishScore > bearishScore + 2`, `SELL`/`BEARISH`
iff `bearishScore > bullishScore + 2`, otherwise `HOLD`/`SIDEWAYS`.
The reported trend is derived from the scores, not taken as an input. -/
def aiSignalTrend (bullishScore bearishScore : ℚ) : SignalDir × Trend :=
  if bullishScore > bearishScore + 2 then (SignalDir.BUY, Trend.BULLISH)
  else if bearishScore > bullishScore + 2 then (SignalDir.SELL, Trend.BEARISH)
  else (SignalDir.HOLD, Trend.SIDEWAYS)

/-- The four optional content analyses feeding `performAIAnalysis`:
each source, when present, contributes a (bullish, bearish) score pair
computed by the corresponding `analyze*` helper. -/
structure AnalysisInputs where
  cheatSheet : Option (ℚ × ℚ)
  opinion : Option (ℚ × ℚ)
  news : Option (ℚ × ℚ)
  calendar : Option (ℚ × ℚ)
deriving DecidableEq

/-- Weighted contribution of one optional content source. -/
def weightPair (w : ℚ) : Option (ℚ × ℚ) → ℚ × ℚ
  | none => (0, 0)
  | some p => (p.1 * w, p.2 * w)

/-- Score aggregation of `performAIAnalysis` (lines 85-119): cheat sheet
weighted 3x, opinion and news 2x, calendar 1x; each present source also
adds a fixed confidence boost (0.2, 0.15, 0.1, 0.05 respectively).
Returns (bullishScore, bearishScore, confidenceBoost). -/
def perfScores (ci : AnalysisInputs) : ℚ × ℚ × ℚ :=
  let c := weightPair 3 ci.cheatSheet
  let o := weightPair 2 ci.opinion
  let n := weightPair 2 ci.news
  let k := weightPair 1 ci.calendar
  (c.1 + o.1 + n.1 + k.1,
   c.2 + o.2 + n.2 + k.2,
   (if ci.cheatSheet.isSome then 2/10 else 0) +
     (if ci.opinion.isSome then 15/100 else 0) +
     (if ci.news.isSome then 1/10 else 0) +
     (if ci.calendar.isSome then 5/100 else 0))

/-- Confidence formula of `performAIAnalysis` (lines 133-136):
`min(0.95, 0.6 + confidenceBoost + min(0.3, |bullish - bearish| * 0.05))`. -/
def aiConfidence (ci : AnalysisInputs) : ℚ :=
  let s := perfScores ci
  min (95/100) (6/10 + s.2.2 + min (3/10) (|s.1 - s.2.1| * (5/100)))

/-- Risk-management levels of `performAIAnalysis` (lines 138-162 and the
rounding at lines 171-175): fixed 2 percent risk, take-profit multipliers
2.0, 3.0, 4.0, each level rounded at the output boundary. -/
def aiRiskLevels (symbol : String) (sig : SignalDir) (currentPrice : ℚ) :
    SignalLevels :=
  let riskAmount := currentPrice * (2/100)
  let d := decimalsFor symbol
  if sig = SignalDir.BUY then
    ⟨roundTo d currentPrice,
     roundTo d (currentPrice - riskAmount),
     roundTo d (currentPrice + riskAmount * 2),
     roundTo d (currentPrice + riskAmount * 3),
     roundTo d (currentPrice + riskAmount * 4)⟩
  else if sig = SignalDir.SELL then
    ⟨roundTo d currentPrice,
     roundTo d (currentPrice + riskAmount),
     roundTo d (currentPrice - riskAmount * 2),
     roundTo d (currentPrice - riskAmount * 3),
     roundTo d (currentPrice - riskAmount * 4)⟩
  else
    ⟨roundTo d currentPrice, roundTo d currentPrice, roundTo d currentPrice,
     roundTo d currentPrice, roundTo d currentPrice⟩

/-- Simulated current market price of `performAIAnalysis` (line 83):
`symbol === 'XAUUSD' ? 2650 + Math.random() * 50 : 1.0550 + Math.random() * 0.0200`.
The random draw is made explicit as the argument `rand`. -/
def simulatedPrice (symbol : String) (rand : ℚ) : ℚ :=
  if symbol = "XAUUSD" then 2650 + rand * 50 else 1055/1000 + rand * (2/100)

/-- The decision-relevant fields of the `AnalysisResult` record. -/
structure AnalysisResult where
  signal : SignalDir
  confidence : ℚ
  levels : SignalLevels
  trend : Trend
deriving DecidableEq

/-- `performAIAnalysis` (lines 76-179): aggregates the content scores,
decides direction and trend, computes the confidence and derives the
2 percent risk ladder from the simulated current price.  `rand` is the
`Math.random()` draw used for the simulated price. -/
def performAIAnalysis (symbol : String) (ci : AnalysisInputs) (rand : ℚ) :
    AnalysisResult :=
  let s := perfScores ci
  let currentPrice := simulatedPrice symbol rand
  let st := aiSignalTrend s.1 s.2.1
  ⟨st.1, aiConfidence ci, aiRiskLevels symbol st.1 currentPrice, st.2⟩

/-! ## autonomousTradingEngine.ts: determineEnhancedSignalType and
createEnhancedTradingSignal -/

/-- The market-data fields read by `determineEnhancedSignalType` and
`createEnhancedTradingSignal`. -/
structure MarketData where
  rsi : ℚ
  macd : ℚ
  currentPrice : ℚ
  support : ℚ
  resistance : ℚ
  trend : Trend
  volume : ℚ
  reliability : ℚ
deriving DecidableEq

/-- RSI contribution (lines 613-619): (bullish, bearish) points. -/
def rsiScores (rsi : ℚ) : ℚ × ℚ :=
  if rsi < 30 then (3, 0)
  else if rsi < 40 then (2, 0)
  else if rsi > 70 then (0, 3)
  else if rsi > 60 then (0, 2)
  else if rsi > 50 then (1, 0)
  else (0, 1)

/-- MACD contribution (lines 621-625). -/
def macdScores (macd : ℚ) : ℚ × ℚ :=
  if macd > 1/2 then (2, 0)
  else if macd > 0 then (1, 0)
  else if macd < -(1/2) then (0, 2)
  else (0, 1)

/-- Price-position contribution (lines 627-633), from
`(currentPrice - support) / (resistance - support)`. -/
def posScores (pricePosition : ℚ) : ℚ × ℚ :=
  if pricePosition > 8/10 then (2, 0)
  else if pricePosition > 6/10 then (1, 0)
  else if pricePosition < 2/10 then (0, 2)
  else if pricePosition < 4/10 then (0, 1)
  else (0, 0)

/-- Trend-alignment contribution (lines 635-637): the trend adds 2 points
to the matching side of the score; it is never used as a veto. -/
def trendScores (t : Trend) : ℚ × ℚ :=
  match t with
  | Trend.BULLISH => (2, 0)
  | Trend.BEARISH => (0, 2)
  | Trend.SIDEWAYS => (0, 0)

/-- Score accumulation of `determineEnhancedSignalType` (lines 609-649),
including the volume-confirmation and source-reliability bonuses that are
awarded to whichever side is currently ahead. -/
def enhancedScores (md : MarketData) : ℚ × ℚ :=
  let s1 := rsiScores md.rsi
  let s2 := macdScores md.macd
  let pricePosition := (md.currentPrice - md.support) / (md.resistance - md.support)
  let s3 := posScores pricePosition
  let s4 := trendScores md.trend
  let b0 := s1.1 + s2.1 + s3.1 + s4.1
  let r0 := s1.2 + s2.2 + s3.2 + s4.2
  let p1 : ℚ × ℚ :=
    if md.volume > 75000 then
      (if b0 > r0 then (b0 + 1, r0) else (b0, r0 + 1))
    else (b0, r0)
  if md.reliability > 8/10 then
    (if p1.1 > p1.2 then (p1.1 + 1, p1.2) else (p1.1, p1.2 + 1))
  else p1

/-- `determineEnhancedSignalType` (lines 609-657): HOLD below the brain
confidence threshold 0.65, otherwise BUY iff `bullish > bearish + 2`,
SELL iff `bearish > bullish + 2`, else HOLD. -/
def determineEnhancedSignalType (md : MarketData) (brainConfidence : ℚ) :
    SignalDir :=
  let s := enhancedScores md
  if brainConfidence < 65/100 then SignalDir.HOLD
  else if s.1 > s.2 + 2 then SignalDir.BUY
  else if s.2 > s.1 + 2 then SignalDir.SELL
  else SignalDir.HOLD

/-- Price ladder of `createEnhancedTradingSignal` (lines 659-678), before
the output rounding: 2 percent risk; for BUY the stop loss is
`max(entryPrice - riskAmount, support * 0.999)` and the take profits use
multipliers 1.8, 3.0, 4.5; SELL is mirrored against `resistance * 1.001`. -/
def enhancedLadderRaw (signalType : SignalDir) (entryPrice support resistance : ℚ) :
    Ladder :=
  let riskAmount := entryPrice * (2/100)
  if signalType = SignalDir.BUY then
    ⟨max (entryPrice - riskAmount) (support * (999/1000)),
     entryPrice + riskAmount * (18/10),
     entryPrice + riskAmount * 3,
     entryPrice + riskAmount * (45/10)⟩
  else
    ⟨min (entryPrice + riskAmount) (resistance * (1001/1000)),
     entryPrice - riskAmount * (18/10),
     entryPrice - riskAmount * 3,
     entryPrice - riskAmount * (45/10)⟩

/-- The price levels of the signal emitted by `createEnhancedTradingSignal`
(lines 659-699): the raw ladder rounded at the output boundary. -/
def createEnhancedTradingSignal (symbol : String) (signalType : SignalDir)
    (currentPrice support resistance : ℚ) : SignalLevels :=
  let l := enhancedLadderRaw signalType currentPrice support resistance
  let d := decimalsFor symbol
  ⟨roundTo d currentPrice, roundTo d l.stopLoss, roundTo d l.takeProfit1,
   roundTo d l.takeProfit2, roundTo d l.takeProfit3⟩

/-! ## enhancedAIAnalyzer.ts: calculatePreciseRiskLevels -/

/-- Risk adjustment of `calculatePreciseRiskLevels` (lines 616-625):
`riskAmount = currentPrice * riskPercent`, reduced by 25 percent when the
market risk level is HIGH, increased by 25 percent when volatility
exceeds 0.04. -/
def adjustedRiskAmount (currentPrice riskPercent volatility : ℚ)
    (riskLevel : String) : ℚ :=
  let riskAmount := currentPrice * riskPercent
  if riskLevel = "HIGH" then riskAmount * (3/4)
  else if volatility > 4/100 then riskAmount * (5/4)
  else riskAmount

/-- Price ladder of `calculatePreciseRiskLevels` (lines 627-648), before
the output rounding: take-profit multipliers 2.0, 3.0, 4.0 around the
adjusted risk; the stop loss is purely percentage-based (no
support/resistance anchoring in this engine). -/
def preciseLadderRaw (signal : SignalDir) (entryPrice adjustedRisk : ℚ) :
    Ladder :=
  if signal = SignalDir.BUY then
    ⟨entryPrice - adjustedRisk,
     entryPrice + adjustedRisk * 2,
     entryPrice + adjustedRisk * 3,
     entryPrice + adjustedRisk * 4⟩
  else if signal = SignalDir.SELL then
    ⟨entryPrice + adjustedRisk,
     entryPrice - adjustedRisk * 2,
     entryPrice - adjustedRisk * 3,
     entryPrice - adjustedRisk * 4⟩
  else
    ⟨entryPrice, entryPrice, entryPrice, entryPrice⟩

/-- `calculatePreciseRiskLevels` (lines 615-657): the rounded output
levels. -/
def calculatePreciseRiskLevels (symbol : String) (signal : SignalDir)
    (currentPrice adjustedRisk : ℚ) : SignalLevels :=
  let l := preciseLadderRaw signal currentPrice adjustedRisk
  let d := decimalsFor symbol
  ⟨roundTo d currentPrice, roundTo d l.stopLoss, roundTo d l.takeProfit1,
   roundTo d l.takeProfit2, roundTo d l.takeProfit3⟩

/-! ## App.tsx AILearningEngine and marketPriceService.checkTPSLLevels

The numeric and status fields of a `TradeOutcome` record.  The
string-building fields (`reasoningFactors`, `marketConditions`,
`lessonsLearned`) and the timestamp are not part of the embedding: no
decision analysed here reads them back. -/

structure TradeRec where
  signalId : String
  symbol : String
  signalType : SignalDir
  entryPrice : ℚ
  currentPrice : ℚ
  stopLoss : ℚ
  takeProfit1 : ℚ
  takeProfit2 : ℚ
  takeProfit3 : ℚ
  confidence : ℚ
  outcome : Outcome
  pnl : ℚ
  pnlPercentage : ℚ
deriving DecidableEq

/-- Result of `checkTPSLLevels`: which levels the observed price crossed. -/
structure TPSLStatus where
  tp1Hit : Bool
  tp2Hit : Bool
  tp3Hit : Bool
  stopLossHit : Bool
  currentPrice : ℚ
deriving DecidableEq

/-- `marketPriceService.checkTPSLLevels` (lines 592-633).  The branch
condition of the source is `signal.signal === 'BUY'`; `signalField?`
models the `signal` field of the argument.  The `TradeOutcome` records
that `checkTradeOutcomes` passes carry their direction under the name
`signalType` and have no `signal` field, so on that call path the field
is absent (`none`), the strict equality with the string BUY is false and
the else branch (the SELL-side comparisons, `price <= tp` and
`price >= stopLoss`) always executes, whatever the direction of the
record.  When no current price is available every flag is false and the
entry price is reported back. -/
def checkTPSLLevels (signalField? : Option SignalDir) (t : TradeRec)
    (price? : Option ℚ) : TPSLStatus :=
  match price? with
  | none => ⟨false, false, false, false, t.entryPrice⟩
  | some price =>
    if signalField? = some SignalDir.BUY then
      ⟨decide (price ≥ t.takeProfit1), decide (price ≥ t.takeProfit2),
       decide (price ≥ t.takeProfit3), decide (price ≤ t.stopLoss), price⟩
    else
      ⟨decide (price ≤ t.takeProfit1), decide (price ≤ t.takeProfit2),
       decide (price ≤ t.takeProfit3), decide (price ≥ t.stopLoss), price⟩

/-- `App.tsx determineWinOutcome` (lines 369-374): tp3 hit gives WIN,
tp2 hit gives WIN, tp1 hit gives PARTIAL, fallback WIN. -/
def determineWinOutcome (s : TPSLStatus) : Outcome :=
  if s.tp3Hit then Outcome.WIN
  else if s.tp2Hit then Outcome.WIN
  else if s.tp1Hit then Outcome.PARTIAL
  else Outcome.WIN

/-- The branch structure of the loop body of `checkTradeOutcomes`
(lines 357-366): the stop-loss branch is evaluated first and yields LOSS;
otherwise any crossed take profit yields `determineWinOutcome`; otherwise
the record is left alone (`none`). -/
def decideOutcome (s : TPSLStatus) : Option Outcome :=
  if s.stopLossHit then some Outcome.LOSS
  else if s.tp1Hit || s.tp2Hit || s.tp3Hit then some (determineWinOutcome s)
  else none

/-- Field updates applied to the found trade by `updateTradeOutcome`
(lines 383-396): outcome, current price, pnl (directional) and
pnl percentage. -/
def updRec (t : TradeRec) (o : Outcome) (price : ℚ) : TradeRec :=
  let pnl :=
    if t.signalType = SignalDir.BUY then price - t.entryPrice
    else if t.signalType = SignalDir.SELL then t.entryPrice - price
    else t.pnl
  { t with outcome := o, currentPrice := price, pnl := pnl,
           pnlPercentage := pnl / t.entryPrice * 100 }

/-- Replace the first element satisfying `p` (the semantics of finding a
record by id in an array and mutating it in place). -/
def updateFirst (p : α → Bool) (f : α → α) : List α → List α
  | [] => []
  | x :: xs => if p x then f x :: xs else x :: updateFirst p f xs

/-- The aggregate metrics recomputed by `updateMetrics` (lines 446-461).
The per-symbol map is modelled by the standalone `symbolPerfOf` below. -/
structure Metrics where
  totalTrades : ℕ
  winningTrades : ℕ
  losingTrades : ℕ
  winRate : ℚ
  avgPnL : ℚ
  avgConfidence : ℚ
deriving DecidableEq

/-- `updateMetrics` (lines 446-461): counts over the completed trades;
the averages are recomputed only when at least one trade completed. -/
def computeMetrics (history : List TradeRec) (old : Metrics) : Metrics :=
  let completed := history.filter fun t => decide (t.outcome ≠ Outcome.PENDING)
  let winning := completed.filter fun t =>
    decide (t.outcome = Outcome.WIN ∨ t.outcome = Outcome.PARTIAL)
  let losing := completed.filter fun t => decide (t.outcome = Outcome.LOSS)
  if 0 < completed.length then
    { totalTrades := completed.length,
      winningTrades := winning.length,
      losingTrades := losing.length,
      winRate := (winning.length : ℚ) / completed.length,
      avgPnL := (completed.map (·.pnlPercentage)).sum / completed.length,
      avgConfidence := (completed.map (·.confidence)).sum / completed.length }
  else
    { old with totalTrades := completed.length,
               winningTrades := winning.length,
               losingTrades := losing.length }

/-- A learning rule (`condition`/`action` are the fields read by
`applyLearningToSignal`). -/
structure LearningRule where
  condition : String
  action : String
  successRate : ℚ
  timesApplied : ℕ
deriving DecidableEq

/-- The mutable state of `AILearningEngine` touched by the outcome path:
trade history, learning rules and derived metrics. -/
structure EngineState where
  tradeHistory : List TradeRec
  learningRules : List LearningRule
  metrics : Metrics
deriving DecidableEq

/-- `App.tsx updateTradeOutcome` (lines 376-408): looks the trade up by
signal id; when no trade matches it only logs a warning and returns with
the state untouched; otherwise it updates the found record and recomputes
the metrics. -/
def updateTradeOutcome (st : EngineState) (signalId : String) (o : Outcome)
    (price : ℚ) : EngineState :=
  match st.tradeHistory.find? (fun t => t.signalId == signalId) with
  | none => st
  | some _ =>
    let h := updateFirst (fun t => t.signalId == signalId)
      (fun t => updRec t o price) st.tradeHistory
    { st with tradeHistory := h, metrics := computeMetrics h st.metrics }

/-- One iteration of the loop body of `checkTradeOutcomes`
(lines 357-366) for a single snapshotted pending trade.  The
`TradeOutcome` record has no `signal` field, so `checkTPSLLevels` is
invoked with that field absent. -/
def outcomeStep (prices : String → Option ℚ) (acc : EngineState)
    (trade : TradeRec) : EngineState :=
  let s := checkTPSLLevels none trade (prices trade.symbol)
  match decideOutcome s with
  | some o => updateTradeOutcome acc trade.signalId o s.currentPrice
  | none => acc

/-- `App.tsx checkTradeOutcomes` (lines 354-367): snapshot the PENDING
trades, evaluate each against the current price of its symbol, and apply
the stop-loss / take-profit transition through `updateTradeOutcome`. -/
def checkTradeOutcomes (prices : String → Option ℚ) (st : EngineState) :
    EngineState :=
  let pending := st.tradeHistory.filter fun t => decide (t.outcome = Outcome.PENDING)
  pending.foldl (outcomeStep prices) st

/-- Per-symbol performance entry of `updateSymbolPerformance`
(lines 470-498). -/
structure SymbolPerf where
  wins : ℕ
  losses : ℕ
  avgPnL : ℚ
  winRate : ℚ
deriving DecidableEq

/-- The completed trades of one symbol. -/
def completedFor (history : List TradeRec) (symbol : String) : List TradeRec :=
  history.filter fun t =>
    decide (t.symbol = symbol ∧ t.outcome ≠ Outcome.PENDING)

/-- The entry `updateSymbolPerformance` (lines 470-498) stores for one
symbol: wins count the WIN and PARTIAL outcomes, losses the rest, and
`winRate = wins / count`; symbols with no completed trade are absent. -/
def symbolPerfOf (history : List TradeRec) (symbol : String) :
    Option SymbolPerf :=
  let completed := completedFor history symbol
  if completed.isEmpty then none
  else
    let wins := (completed.filter fun t =>
      decide (t.outcome = Outcome.WIN ∨ t.outcome = Outcome.PARTIAL)).length
    some { wins := wins,
           losses := completed.length - wins,
           avgPnL := (completed.map (·.pnlPercentage)).sum / completed.length,
           winRate := (wins : ℚ) / completed.length }

/-- Result of `applyLearningToSignal`; the `recommendations` string list
is not modelled. -/
structure LearnResult where
  adjustedConfidence : ℚ
  shouldAvoid : Bool
deriving DecidableEq

/-- The symbol-specific branch of `applyLearningToSignal` (lines 605-620):
with at least 5 resolved trades, win rate above 0.7 boosts the confidence
by 10 percent (capped at 0.95); win rate below 0.4 cuts it by 20 percent
and below 0.3 additionally flags the symbol as avoided. -/
def symbolLearnStep (symbolPerf? : Option SymbolPerf) (confidence : ℚ) :
    ℚ × Bool :=
  match symbolPerf? with
  | none => (confidence, false)
  | some perf =>
    if 5 ≤ perf.wins + perf.losses then
      if perf.winRate > 7/10 then (min (95/100) (confidence * (11/10)), false)
      else if perf.winRate < 4/10 then
        (confidence * (8/10), decide (perf.winRate < 3/10))
      else (confidence, false)
    else (confidence, false)

/-- The per-factor confidence adjustment of `applyLearningToSignal`
(lines 622-631). -/
def factorStep (bestFactors worstFactors : List String) (c : ℚ)
    (factor : String) : ℚ :=
  if bestFactors.contains factor then min (95/100) (c * (105/100))
  else if worstFactors.contains factor then c * (9/10)
  else c

/-- The per-rule adjustment of `applyLearningToSignal` (lines 633-644);
`confidence` is the original (pre-adjustment) confidence that the
low-confidence rule tests. -/
def ruleStep (confidence : ℚ) (acc : ℚ × Bool) (rule : LearningRule) :
    ℚ × Bool :=
  let avoid :=
    if rule.condition = "low_confidence" ∧ confidence < 7/10 ∧
        rule.action = "AVOID_SIGNAL" then true else acc.2
  let c :=
    if rule.condition = "high_volatility" ∧ rule.action = "PREFER_SIGNAL"
      then min (95/100) (acc.1 * (103/100)) else acc.1
  (c, avoid)

/-- `App.tsx applyLearningToSignal` (lines 595-651).  `symbolPerf?` is the
`metrics.symbolPerformance.get(symbol)` lookup, `bestFactors` and
`worstFactors` the stored factor lists, `rules` the learning rules; the
result is clamped into [0.3, 0.95] at the end. -/
def applyLearningToSignal (symbolPerf? : Option SymbolPerf)
    (bestFactors worstFactors : List String) (rules : List LearningRule)
    (confidence : ℚ) (reasoningFactors : List String) : LearnResult :=
  let step1 := symbolLearnStep symbolPerf? confidence
  let c2 := reasoningFactors.foldl (factorStep bestFactors worstFactors) step1.1
  let step3 := rules.foldl (ruleStep confidence) (c2, step1.2)
  { adjustedConfidence := max (3/10) (min (95/100) step3.1),
    shouldAvoid := step3.2 }

/-! ## Claims -/

/-- C6: for direction BUY with entry price 2650.00, risk percent 0.02 and
take-profit multipliers 2, 3, 4 (the hardcoded values of
`performAIAnalysis`), the computed ladder is stopLoss 2597.00,
takeProfit1 2756.00, takeProfit2 2809.00, takeProfit3 2862.00. -/
theorem claim6_scenario_c_ladder :
    aiRiskLevels "XAUUSD" SignalDir.BUY 2650 =
      ⟨2650, 2597, 2756, 2809, 2862⟩ := by
  simp only [aiRiskLevels, roundTo, decimalsFor, round_eq, String.reduceEq]
  norm_num

/-- C1 (counterexample): `createEnhancedTradingSignal` emits a BUY signal
whose stop loss (199.8, from a support level of 200 lying above the entry
price 100) is above the entry price: the ladder is not strictly ordered
on the correct side when the supplied support lies on the wrong side of
the entry price. -/
theorem claim1_counterexample :
    (createEnhancedTradingSignal "XAUUSD" SignalDir.BUY 100 200 300).entryPrice
        = 100 ∧
    (createEnhancedTradingSignal "XAUUSD" SignalDir.BUY 100 200 300).stopLoss
        = 999/5 ∧
    ¬ (createEnhancedTradingSignal "XAUUSD" SignalDir.BUY 100 200 300).stopLoss
        < (createEnhancedTradingSignal "XAUUSD" SignalDir.BUY 100 200 300).entryPrice := by
  simp only [createEnhancedTradingSignal, enhancedLadderRaw, roundTo,
    decimalsFor, round_eq, String.reduceEq]
  norm_num

/-- C1 (amended): the raw price ladders are strictly ordered on the
correct side of entry provided the structural level used for the stop
lies on the correct side of the entry price: for
`createEnhancedTradingSignal` this means `support * 0.999 < entryPrice`
for BUY and `entryPrice < resistance * 1.001` for SELL; the ladder of
`calculatePreciseRiskLevels` is ordered whenever the adjusted risk amount
is positive. -/
theorem claim1_ladder_ordered_on_correct_side
    (entryPrice support resistance adjRisk : ℚ) (hentry : 0 < entryPrice) :
    (support * (999/1000) < entryPrice →
      ladderOrderedBuy entryPrice
        (enhancedLadderRaw SignalDir.BUY entryPrice support resistance)) ∧
    (entryPrice < resistance * (1001/1000) →
      ladderOrderedSell entryPrice
        (enhancedLadderRaw SignalDir.SELL entryPrice support resistance)) ∧
    (0 < adjRisk →
      ladderOrderedBuy entryPrice
        (preciseLadderRaw SignalDir.BUY entryPrice adjRisk) ∧
      ladderOrderedSell entryPrice
        (preciseLadderRaw SignalDir.SELL entryPrice adjRisk)) := by
  have hr : 0 < entryPrice * (2/100) := by positivity
  refine ⟨?_, ?_, ?_⟩
  · intro hs
    simp only [enhancedLadderRaw, ladderOrderedBuy, reduceIte]
    exact ⟨max_lt (by linarith) hs, by nlinarith, by nlinarith, by nlinarith⟩
  · intro hres
    simp only [enhancedLadderRaw, ladderOrderedSell, reduceCtorEq, reduceIte]
    exact ⟨lt_min (by linarith) hres, by nlinarith, by nlinarith, by nlinarith⟩
  · intro ha
    constructor
    · simp only [preciseLadderRaw, ladderOrderedBuy, reduceIte]
      exact ⟨by linarith, by linarith, by nlinarith, by nlinarith⟩
    · simp only [preciseLadderRaw, ladderOrderedSell, reduceCtorEq, reduceIte]
      exact ⟨by linarith, by linarith, by nlinarith, by nlinarith⟩

/-- C1 (witness): the amended ordering at entry 100, support 50,
resistance 200 and adjusted risk 1. -/
theorem claim1_ladder_ordered_witness :
    ladderOrderedBuy 100 (enhancedLadderRaw SignalDir.BUY 100 50 200) ∧
    ladderOrderedSell 100 (enhancedLadderRaw SignalDir.SELL 100 50 200) ∧
    ladderOrderedBuy 100 (preciseLadderRaw SignalDir.BUY 100 1) ∧
    ladderOrderedSell 100 (preciseLadderRaw SignalDir.SELL 100 1) := by
  have h := claim1_ladder_ordered_on_correct_side 100 50 200 1 (by norm_num)
  exact ⟨h.1 (by norm_num), h.2.1 (by norm_num),
    (h.2.2 (by norm_num)).1, (h.2.2 (by norm_num)).2⟩

/-- C2: the confidence of `performAIAnalysis` lies in [0.30, 0.95] before
the learning adjustment, and the adjusted confidence returned by
`applyLearningToSignal` lies in [0.30, 0.95] for all inputs. -/
theorem claim2_confidence_bounds :
    (∀ ci : AnalysisInputs,
      3/10 ≤ aiConfidence ci ∧ aiConfidence ci ≤ 95/100) ∧
    ∀ (sp : Option SymbolPerf) (bf wf : List String)
      (rules : List LearningRule) (conf : ℚ) (rf : List String),
      3/10 ≤ (applyLearningToSignal sp bf wf rules conf rf).adjustedConfidence ∧
        (applyLearningToSignal sp bf wf rules conf rf).adjustedConfidence
          ≤ 95/100 := by
  constructor
  · intro ci
    have hb : 0 ≤ (perfScores ci).2.2 := by
      rcases ci with ⟨c, o, n, k⟩
      simp only [perfScores]
      split_ifs <;> norm_num
    have habs : (0:ℚ) ≤
        min (3/10) (|(perfScores ci).1 - (perfScores ci).2.1| * (5/100)) :=
      le_min (by norm_num) (by positivity)
    constructor
    · simp only [aiConfidence]
      exact le_min (by norm_num) (by linarith)
    · simp only [aiConfidence]
      exact min_le_left _ _
  · intro sp bf wf rules conf rf
    refine ⟨?_, ?_⟩
    · simp only [applyLearningToSignal]
      exact le_max_left _ _
    · simp only [applyLearningToSignal]
      exact max_le (by norm_num) (min_le_left _ _)

/-- C4 (counterexample): market data with trend BEARISH whose accumulated
scores are bullish 8 versus bearish 2; `determineEnhancedSignalType`
returns BUY, not the HOLD that a trend veto would require. -/
def mdC4 : MarketData :=
  ⟨25, 1, 90, 0, 100, Trend.BEARISH, 80000, 1/2⟩

/-- C4 (counterexample): no trend veto is applied; bullish 8 versus
bearish 2 under a BEARISH trend yields BUY, not HOLD. -/
theorem claim4_counterexample :
    mdC4.trend = Trend.BEARISH ∧ enhancedScores mdC4 = (8, 2) ∧
    determineEnhancedSignalType mdC4 (7/10) = SignalDir.BUY := by
  refine ⟨rfl, ?_, ?_⟩ <;>
    simp only [determineEnhancedSignalType, enhancedScores, mdC4, rsiScores,
      macdScores, posScores, trendScores] <;> norm_num

/-- C4 (amended): neither engine vetoes against the trend.  In
`determineEnhancedSignalType` the trend only contributes to the scores:
above the 0.65 brain-confidence threshold the direction follows the score
gap alone, whatever the trend.  In `performAIAnalysis` the reported trend
is derived from the computed direction, so the emitted direction never
contradicts it (BUY gives BULLISH, SELL gives BEARISH). -/
theorem claim4_no_trend_veto :
    (∀ (md : MarketData) (bc : ℚ), 65/100 ≤ bc →
      ((enhancedScores md).1 > (enhancedScores md).2 + 2 →
        determineEnhancedSignalType md bc = SignalDir.BUY) ∧
      ((enhancedScores md).2 > (enhancedScores md).1 + 2 →
        determineEnhancedSignalType md bc = SignalDir.SELL)) ∧
    ∀ bullishScore bearishScore : ℚ,
      ((aiSignalTrend bullishScore bearishScore).1 = SignalDir.BUY →
        (aiSignalTrend bullishScore bearishScore).2 = Trend.BULLISH) ∧
      ((aiSignalTrend bullishScore bearishScore).1 = SignalDir.SELL →
        (aiSignalTrend bullishScore bearishScore).2 = Trend.BEARISH) := by
  constructor
  · intro md bc hbc
    constructor
    · intro h
      simp only [determineEnhancedSignalType]
      rw [if_neg (not_lt.mpr hbc), if_pos h]
    · intro h
      simp only [determineEnhancedSignalType]
      rw [if_neg (not_lt.mpr hbc), if_neg (by linarith), if_pos h]
  · intro b r
    constructor <;> intro h <;> simp only [aiSignalTrend] at h ⊢ <;>
      split_ifs at h ⊢ <;> simp_all

/-- C4 (witness): the no-veto rule at the concrete market data of the
counterexample, and the trend agreement at scores 8 versus 2. -/
theorem claim4_no_trend_veto_witness :
    determineEnhancedSignalType mdC4 (7/10) = SignalDir.BUY ∧
    (aiSignalTrend 8 2).2 = Trend.BULLISH := by
  constructor
  · exact (claim4_no_trend_veto.1 mdC4 (7/10) (by norm_num)).1
      (by simp only [enhancedScores, mdC4, rsiScores, macdScores, posScores,
            trendScores]
          norm_num)
  · exact (claim4_no_trend_veto.2 8 2).1
      (by simp only [aiSignalTrend]; norm_num)

/-- C5 (counterexample): with identical content scores, two invocations of
`performAIAnalysis` differing only in the internal `Math.random()` draw
produce different entry prices (2650 versus 2675): the emitted ladder is
not a function of the aggregated scores and market inputs alone. -/
def ciC5 : AnalysisInputs := ⟨some (4, 0), none, none, none⟩

/-- C5 (counterexample): the ladder prices depend on the random draw. -/
theorem claim5_counterexample :
    (performAIAnalysis "XAUUSD" ciC5 0).levels.entryPrice = 2650 ∧
    (performAIAnalysis "XAUUSD" ciC5 (1/2)).levels.entryPrice = 2675 ∧
    (performAIAnalysis "XAUUSD" ciC5 0).levels.entryPrice ≠
      (performAIAnalysis "XAUUSD" ciC5 (1/2)).levels.entryPrice := by
  simp only [performAIAnalysis, perfScores, weightPair, aiSignalTrend,
    simulatedPrice, aiRiskLevels, roundTo, decimalsFor, round_eq,
    String.reduceEq, ciC5]
  norm_num

/-- C5 (amended): direction, confidence and trend of `performAIAnalysis`
are deterministic functions of the symbol and the aggregated content
scores: they do not depend on the random draw; only the simulated price
(and hence the emitted ladder) does. -/
theorem claim5_decision_deterministic_given_scores (symbol : String)
    (ci : AnalysisInputs) (r1 r2 : ℚ) :
    (performAIAnalysis symbol ci r1).signal =
      (performAIAnalysis symbol ci r2).signal ∧
    (performAIAnalysis symbol ci r1).confidence =
      (performAIAnalysis symbol ci r2).confidence ∧
    (performAIAnalysis symbol ci r1).trend =
      (performAIAnalysis symbol ci r2).trend :=
  ⟨rfl, rfl, rfl⟩

/-- C3 (counterexample): a PENDING BUY trade with stop 98 and take
profits 103, 106, 109 above the entry 100. -/
def twC3 : TradeRec :=
  ⟨"sig-3", "XAUUSD", SignalDir.BUY, 100, 100, 98, 103, 106, 109, 7/10,
   Outcome.PENDING, 0, 0⟩

/-- C3 (counterexample): at price 110 the BUY trade has crossed
takeProfit3 upwards (109 at or below 110) and has not crossed its stop
downwards (110 above 98), so the claim requires WIN; but since the
outcome check always runs the SELL-side comparisons (the `signal` field
is absent from the record), 110 at or above the stop 98 sets
`stopLossHit` and the check assigns LOSS. -/
theorem claim3_counterexample :
    twC3.signalType = SignalDir.BUY ∧
    twC3.stopLoss < 110 ∧ twC3.takeProfit3 ≤ 110 ∧
    (checkTPSLLevels none twC3 (some 110)).stopLossHit = true ∧
    decideOutcome (checkTPSLLevels none twC3 (some 110)) =
      some Outcome.LOSS := by
  decide

/-- C3 (amended): because `checkTPSLLevels` tests a `signal` field that
the `TradeOutcome` records passed by `checkTradeOutcomes` do not carry,
the outcome check applies the SELL-side comparisons whatever the
direction of the record: price at or above the stopLoss field gives LOSS;
otherwise price at or below takeProfit3 gives WIN; at or below
takeProfit2 (above takeProfit3) gives WIN; at or below takeProfit1 only
gives PARTIAL; otherwise the record is left alone (`none`, it stays
PENDING).  For a SELL trade these comparisons are direction-appropriate
(with tp2 giving WIN where the claim expects PARTIAL); for a BUY trade
they are inverted. -/
theorem claim3_outcome_transition (t : TradeRec) (pr : ℚ) :
    (t.stopLoss ≤ pr →
      decideOutcome (checkTPSLLevels none t (some pr)) = some Outcome.LOSS) ∧
    (pr < t.stopLoss → pr ≤ t.takeProfit3 →
      decideOutcome (checkTPSLLevels none t (some pr)) = some Outcome.WIN) ∧
    (pr < t.stopLoss → pr ≤ t.takeProfit2 → t.takeProfit3 < pr →
      decideOutcome (checkTPSLLevels none t (some pr)) = some Outcome.WIN) ∧
    (pr < t.stopLoss → pr ≤ t.takeProfit1 → t.takeProfit2 < pr →
        t.takeProfit3 < pr →
      decideOutcome (checkTPSLLevels none t (some pr)) =
        some Outcome.PARTIAL) ∧
    (pr < t.stopLoss → t.takeProfit1 < pr → t.takeProfit2 < pr →
        t.takeProfit3 < pr →
      decideOutcome (checkTPSLLevels none t (some pr)) = none) := by
  refine ⟨fun h1 => ?_, fun h1 h2 => ?_, fun h1 h2 h3 => ?_,
    fun h1 h2 h3 h4 => ?_, fun h1 h2 h3 h4 => ?_⟩
  · simp [checkTPSLLevels, decideOutcome, h1]
  · simp [checkTPSLLevels, decideOutcome, determineWinOutcome,
      not_le.mpr h1, h2]
  · simp [checkTPSLLevels, decideOutcome, determineWinOutcome,
      not_le.mpr h1, h2, not_le.mpr h3]
  · simp [checkTPSLLevels, decideOutcome, determineWinOutcome,
      not_le.mpr h1, h2, not_le.mpr h3, not_le.mpr h4]
  · simp [checkTPSLLevels, decideOutcome, not_le.mpr h1,
      not_le.mpr h2, not_le.mpr h3, not_le.mpr h4]

/-- C3 (witness): a PENDING SELL trade with stop 105 above the entry 102
and take profits 103, 101, 99 below it. -/
def twC3w : TradeRec :=
  ⟨"sig-3w", "XAUUSD", SignalDir.SELL, 102, 102, 105, 103, 101, 99, 7/10,
   Outcome.PENDING, 0, 0⟩

/-- C3 (witness): the amended transition at price 102: below the stop,
at or below takeProfit1 only, so the check assigns PARTIAL. -/
theorem claim3_outcome_transition_witness :
    decideOutcome (checkTPSLLevels none twC3w (some 102)) =
      some Outcome.PARTIAL :=
  ((claim3_outcome_transition twC3w 102).2.2.2.1)
    (by norm_num [twC3w]) (by norm_num [twC3w]) (by norm_num [twC3w])
    (by norm_num [twC3w])

/-- C9 (counterexample): a PENDING BUY trade whose (malformed) ladder has
the stop at 105 above takeProfit1 at 103. -/
def twC9 : TradeRec :=
  ⟨"sig-9", "XAUUSD", SignalDir.BUY, 100, 100, 105, 103, 106, 109, 7/10,
   Outcome.PENDING, 0, 0⟩

/-- C9 (counterexample): price 104 crosses both levels of the BUY trade
in the direction-appropriate sense (104 at or below the stop 105, and at
or above takeProfit1 at 103), so the claim requires LOSS; but the check
runs the SELL-side comparisons, which leave `stopLossHit` unset and set
take-profit flags, so the trade is assigned WIN, not LOSS. -/
theorem claim9_counterexample :
    twC9.signalType = SignalDir.BUY ∧
    (104 : ℚ) ≤ twC9.stopLoss ∧ twC9.takeProfit1 ≤ 104 ∧
    (checkTPSLLevels none twC9 (some 104)).stopLossHit = false ∧
    decideOutcome (checkTPSLLevels none twC9 (some 104)) =
      some Outcome.WIN := by
  decide

/-- C9 (amended): the stop-loss branch of the outcome check is evaluated
before any take-profit branch, so whenever the computed `stopLossHit`
flag is set together with a take-profit flag the check assigns LOSS.
But the flags are always computed with the SELL-side comparisons (the
direction field `checkTPSLLevels` tests is absent from the records), so
for a BUY trade a price crossing both levels in the direction-appropriate
sense does not set `stopLossHit` and the trade is not assigned LOSS. -/
theorem claim9_stop_loss_precedence (t : TradeRec) (pr : ℚ)
    (hstop : (checkTPSLLevels none t (some pr)).stopLossHit = true)
    (htp : (checkTPSLLevels none t (some pr)).tp1Hit = true ∨
      (checkTPSLLevels none t (some pr)).tp2Hit = true ∨
      (checkTPSLLevels none t (some pr)).tp3Hit = true) :
    decideOutcome (checkTPSLLevels none t (some pr)) = some Outcome.LOSS := by
  simp [decideOutcome, hstop]

/-- C9 (witness): at price 107 the record of the C9 counterexample has
`stopLossHit` set (107 at or above 105) together with the takeProfit3
flag (107 at or below 109); the branch order yields LOSS. -/
theorem claim9_stop_loss_precedence_witness :
    decideOutcome (checkTPSLLevels none twC9 (some 107)) =
      some Outcome.LOSS :=
  claim9_stop_loss_precedence twC9 107 (by decide)
    (Or.inr (Or.inr (by decide)))

/-- The rule loop of `applyLearningToSignal` never clears the avoid flag:
once set by the symbol branch it survives every rule. -/
theorem foldl_ruleStep_keeps_avoid (conf : ℚ) :
    ∀ (rules : List LearningRule) (c : ℚ),
      (rules.foldl (ruleStep conf) (c, true)).2 = true := by
  intro rules
  induction rules with
  | nil => intro c; rfl
  | cons r rs ih =>
    intro c
    rw [List.foldl_cons]
    have h2 : (ruleStep conf (c, true) r).2 = true := by
      simp [ruleStep]
    rcases hr : ruleStep conf (c, true) r with ⟨c1, a1⟩
    have ha : a1 = true := by rw [hr] at h2; exact h2
    rw [ha]
    exact ih c1

/-- C7: a symbol whose history holds at least 10 resolved trades with a
win rate below 0.3 makes `applyLearningToSignal` return the avoid flag,
whatever the computed confidence, factors and rules. -/
theorem claim7_avoid_flag_on_poor_win_rate (history : List TradeRec)
    (symbol : String) (perf : SymbolPerf) (bestF worstF : List String)
    (rules : List LearningRule) (conf : ℚ) (rf : List String)
    (hp : symbolPerfOf history symbol = some perf)
    (h10 : 10 ≤ (completedFor history symbol).length)
    (hwr : perf.winRate < 3/10) :
    (applyLearningToSignal (symbolPerfOf history symbol) bestF worstF rules
      conf rf).shouldAvoid = true := by
  rw [hp]
  have hne : ¬ (completedFor history symbol).isEmpty = true := by
    rw [List.isEmpty_iff_length_eq_zero]
    omega
  have hwins :
      ((completedFor history symbol).filter fun t =>
        decide (t.outcome = Outcome.WIN ∨ t.outcome = Outcome.PARTIAL)).length
        ≤ (completedFor history symbol).length :=
    List.length_filter_le _ _
  have hperf : perf.wins + perf.losses = (completedFor history symbol).length := by
    rw [symbolPerfOf] at hp
    simp only [hne, if_false, Option.some.injEq, Bool.false_eq_true] at hp
    rw [← hp]
    simp only []
    omega
  have h5 : 5 ≤ perf.wins + perf.losses := by omega
  have havoid : (symbolLearnStep (some perf) conf).2 = true := by
    simp only [symbolLearnStep, if_pos h5]
    rw [if_neg (by intro h; rw [gt_iff_lt] at h; linarith),
        if_pos (by linarith)]
    simp [hwr]
  simp only [applyLearningToSignal]
  rcases hs : symbolLearnStep (some perf) conf with ⟨c1, a1⟩
  rw [hs] at havoid
  simp only at havoid
  rw [havoid]
  exact foldl_ruleStep_keeps_avoid conf rules _

/-- C7 (witness): a history of 10 resolved trades for one symbol. -/
def trC7 (id : String) (o : Outcome) : TradeRec :=
  ⟨id, "XAUUSD", SignalDir.BUY, 100, 100, 98, 103, 106, 109, 7/10, o, 0, 0⟩

/-- C7 (witness): ten resolved trades, two of them WIN, give a win rate
of 0.2 below 0.3; the avoid flag is set. -/
def historyC7 : List TradeRec :=
  [trC7 "a" Outcome.WIN, trC7 "b" Outcome.WIN, trC7 "c" Outcome.LOSS,
   trC7 "d" Outcome.LOSS, trC7 "e" Outcome.LOSS, trC7 "f" Outcome.LOSS,
   trC7 "g" Outcome.LOSS, trC7 "h" Outcome.LOSS, trC7 "i" Outcome.LOSS,
   trC7 "j" Outcome.LOSS]

/-- C7 (witness): the theorem applied to the concrete ten-trade history. -/
theorem claim7_avoid_flag_witness :
    (applyLearningToSignal (symbolPerfOf historyC7 "XAUUSD") [] [] []
      (9/10) []).shouldAvoid = true := by
  refine claim7_avoid_flag_on_poor_win_rate historyC7 "XAUUSD"
    ⟨2, 8, 0, 1/5⟩ [] [] [] (9/10) [] ?_ ?_ ?_
  · simp [symbolPerfOf, completedFor, historyC7, trC7, List.filter_cons,
      List.filter_nil]
    norm_num
  · simp [completedFor, historyC7, trC7, List.filter_cons, List.filter_nil]
  · norm_num

/-- Replacing the first match leaves every element that does not satisfy
the predicate in place. -/
theorem updateFirst_getElem? {α : Type} (p : α → Bool) (f : α → α) :
    ∀ (l : List α) (i : ℕ) (t : α), l[i]? = some t → p t = false →
      (updateFirst p f l)[i]? = some t := by
  intro l
  induction l with
  | nil => intro i t h _; simp at h
  | cons x xs ih =>
    intro i t h hp
    cases i with
    | zero =>
      simp only [List.getElem?_cons_zero, Option.some.injEq] at h
      subst h
      simp [updateFirst, hp]
    | succ j =>
      simp only [List.getElem?_cons_succ] at h
      by_cases hx : p x
      · simp [updateFirst, hx, List.getElem?_cons_succ, h]
      · simp only [updateFirst, hx, Bool.false_eq_true, if_false,
          List.getElem?_cons_succ]
        exact ih j t h hp

/-- `updateTradeOutcome` leaves every record whose signal id differs from
the updated one in place. -/
theorem updateTradeOutcome_getElem?_of_ne (st : EngineState) (id : String)
    (o : Outcome) (price : ℚ) (i : ℕ) (t : TradeRec)
    (hi : st.tradeHistory[i]? = some t)
    (hne : (t.signalId == id) = false) :
    (updateTradeOutcome st id o price).tradeHistory[i]? = some t := by
  cases hf : st.tradeHistory.find? (fun u => u.signalId == id) with
  | none => simpa [updateTradeOutcome, hf] using hi
  | some u =>
    simpa [updateTradeOutcome, hf] using
      updateFirst_getElem? (fun u => u.signalId == id)
        (fun u => updRec u o price) st.tradeHistory i t hi hne

/-- The outcome loop leaves a position fixed as long as every snapshotted
pending trade carries a different signal id. -/
theorem foldl_outcomeStep_getElem? (prices : String → Option ℚ) (i : ℕ)
    (t : TradeRec) :
    ∀ pl : List TradeRec, (∀ x ∈ pl, (t.signalId == x.signalId) = false) →
      ∀ acc : EngineState, acc.tradeHistory[i]? = some t →
        (pl.foldl (outcomeStep prices) acc).tradeHistory[i]? = some t := by
  intro pl
  induction pl with
  | nil => intro _ acc hacc; exact hacc
  | cons x xs ih =>
    intro hx acc hacc
    rw [List.foldl_cons]
    refine ih (fun y hy => hx y (List.mem_cons_of_mem _ hy)) _ ?_
    cases hdo : decideOutcome (checkTPSLLevels none x (prices x.symbol)) with
    | none => simpa [outcomeStep, hdo] using hacc
    | some o =>
      simp only [outcomeStep, hdo]
      exact updateTradeOutcome_getElem?_of_ne acc x.signalId o _ i t hacc
        (hx x (List.mem_cons_self x xs))

/-- C8: when the signal ids of the history are distinct, the outcome
check leaves every record already in a terminal (non-PENDING) status
untouched: only snapshotted PENDING records are ever updated, so the
check is idempotent on terminal records. -/
theorem claim8_terminal_records_unchanged (prices : String → Option ℚ)
    (st : EngineState) (i : ℕ) (t : TradeRec)
    (hnd : (st.tradeHistory.map (fun u => u.signalId)).Nodup)
    (hi : st.tradeHistory[i]? = some t)
    (hterm : t.outcome ≠ Outcome.PENDING) :
    (checkTradeOutcomes prices st).tradeHistory[i]? = some t := by
  have hmem : t ∈ st.tradeHistory := List.getElem?_mem hi
  have hids : ∀ x ∈ st.tradeHistory.filter
      (fun u => decide (u.outcome = Outcome.PENDING)),
      (t.signalId == x.signalId) = false := by
    intro x hx
    have hxmem : x ∈ st.tradeHistory := List.mem_of_mem_filter hx
    have hxpend : x.outcome = Outcome.PENDING := by
      simpa using List.of_mem_filter hx
    rcases Bool.eq_false_or_eq_true (t.signalId == x.signalId) with hb | hb
    · exact absurd (List.inj_on_of_nodup_map hnd hmem hxmem (eq_of_beq hb)
        ▸ hxpend) hterm
    · exact hb
  unfold checkTradeOutcomes
  exact foldl_outcomeStep_getElem? prices i t _ hids st hi

/-- C8 (witness): a single-record history whose record is already WIN. -/
def tC8 : TradeRec :=
  ⟨"sig-8", "XAUUSD", SignalDir.BUY, 100, 107, 98, 103, 106, 109, 7/10,
   Outcome.WIN, 7, 7⟩

/-- C8 (witness): the engine state holding only the terminal record. -/
def stC8 : EngineState := ⟨[tC8], [], ⟨1, 1, 0, 1, 7, 7/10⟩⟩

/-- C8 (witness): running the outcome check over the terminal record at a
price that would cross its levels leaves it unchanged. -/
theorem claim8_terminal_records_unchanged_witness :
    (checkTradeOutcomes (fun _ => some 97) stC8).tradeHistory[0]? =
      some tC8 :=
  claim8_terminal_records_unchanged (fun _ => some 97) stC8 0 tC8
    (by simp [stC8, tC8]) rfl (by decide)

/-- C10: calling `updateTradeOutcome` with a signal id matching no
recorded trade leaves the whole engine state (trade history, learning
rules and metrics) unchanged. -/
theorem claim10_unknown_id_no_op (st : EngineState) (signalId : String)
    (o : Outcome) (price : ℚ)
    (h : ∀ t ∈ st.tradeHistory, ¬ t.signalId = signalId) :
    updateTradeOutcome st signalId o price = st := by
  have hf : st.tradeHistory.find? (fun t => t.signalId == signalId) = none := by
    rw [List.find?_eq_none]
    intro x hx
    simpa using h x hx
  simp [updateTradeOutcome, hf]

/-- C10 (witness): a one-record state. -/
def tC10 : TradeRec :=
  ⟨"sig-10", "XAUUSD", SignalDir.BUY, 100, 100, 98, 103, 106, 109, 7/10,
   Outcome.PENDING, 0, 0⟩

/-- C10 (witness): the engine state holding the single pending record. -/
def stC10 : EngineState := ⟨[tC10], [], ⟨0, 0, 0, 0, 0, 0⟩⟩

/-- C10 (witness): updating a signal id that matches no record returns
the state unchanged. -/
theorem claim10_unknown_id_no_op_witness :
    updateTradeOutcome stC10 "missing" Outcome.LOSS 50 = stC10 :=
  claim10_unknown_id_no_op stC10 "missing" Outcome.LOSS 50 (by
    intro t ht
    have : t = tC10 := by simpa [stC10] using ht
    subst this
    simp [tC10])

end Fx
